import Mathlib

/-!
Shallow embedding of the SLOP_RUNNER card game core (TypeScript sources under
src/): the data model (`models/types.ts`, `models/Card.ts`, the GameState
interface), the state store `GameStateManager`, the action pipeline
`ActionProcessor`, the phase machines (`GameStateManager.advancePhase` and
`PhaseManager.advancePhase`), the win checks (`GameStateManager.checkWinCondition`,
`TurnManager.checkWinConditions`), and the combat code (`ProgramMechanics`,
`ICEMechanics`, `CombatResolver`).

Terminology mapping used throughout: Runner = Intruder, Corp = Defender,
NPU = resource, Program = Unit, ICE = Barrier.

Modelling conventions: class methods that mutate `this.state` and end with
`return this.getState()` become pure functions `GameState → GameState`;
methods that `throw` become `Except String _`; JS numbers holding integers
become `Int` (list lengths and indices use `Nat` where the source guarantees
nonnegativity); log timestamps and metadata are abstracted away (log entries
keep message and category, which is all the claims observe).
-/

/-- PlayerType from models/types.ts. -/
inductive PlayerType where
  | RUNNER
  | CORP
deriving DecidableEq, Repr

/-- PhaseType from models/types.ts. -/
inductive PhaseType where
  | DRAW
  | NPU
  | MAIN
  | COMBAT
deriving DecidableEq, Repr

/-- CardType from models/types.ts. -/
inductive CardType where
  | NPU
  | PROGRAM
  | ICE
deriving DecidableEq, Repr

/-- ProgramType from models/types.ts. -/
inductive ProgramType where
  | FRACTER
  | KILLER
  | DECODER
deriving DecidableEq, Repr

/-- IceType from models/types.ts. -/
inductive IceType where
  | BARRIER
  | SENTRY
  | CODE_GATE
deriving DecidableEq, Repr

/-- EventType from models/types.ts. -/
inductive EventType where
  | GAME
  | COMBAT
  | CARD
  | PHASE
deriving DecidableEq, Repr

/-- LogEntry from models/LogEntry.ts, with the timestamp and metadata
abstracted away (kept: message and category). -/
structure LogEntry where
  message : String
  category : EventType
deriving DecidableEq, Repr

/-- createLogEntry from models/LogEntry.ts (timestamp abstracted). -/
def createLogEntry (message : String) (category : EventType) : LogEntry :=
  { message := message, category := category }

/-- NpuCard interface from models/Card.ts. -/
structure NpuCard where
  id : String
  name : String
  cost : Int
  ascii : List String
  flavorText : String
deriving DecidableEq, Repr

/-- ProgramCard interface from models/Card.ts: power, toughness and
programType are mandatory for programs. -/
structure ProgramCard where
  id : String
  name : String
  cost : Int
  power : Int
  toughness : Int
  programType : ProgramType
  ascii : List String
  flavorText : String
deriving DecidableEq, Repr

/-- IceCard interface from models/Card.ts: power, toughness and iceType are
mandatory for ICE. -/
structure IceCard where
  id : String
  name : String
  cost : Int
  power : Int
  toughness : Int
  iceType : IceType
deriving DecidableEq, Repr

/-- The Card union from models/Card.ts: every card in a zone is an NPU card,
a program, or an ICE (the three interfaces extending Card, discriminated by
the type field exactly as the type guards isNpuCard/isProgramCard/isIceCard
do). -/
inductive Card where
  | npu (c : NpuCard)
  | program (c : ProgramCard)
  | ice (c : IceCard)
deriving DecidableEq, Repr

namespace Card

/-- The discriminating type field of the Card interface. -/
def type : Card → CardType
  | .npu _ => CardType.NPU
  | .program _ => CardType.PROGRAM
  | .ice _ => CardType.ICE

/-- The cost field of the Card interface. -/
def cost : Card → Int
  | .npu c => c.cost
  | .program c => c.cost
  | .ice c => c.cost

/-- The optional power field of the Card interface (absent on NPU cards). -/
def powerOpt : Card → Option Int
  | .npu _ => none
  | .program c => some c.power
  | .ice c => some c.power

/-- The optional toughness field of the Card interface. -/
def toughnessOpt : Card → Option Int
  | .npu _ => none
  | .program c => some c.toughness
  | .ice c => some c.toughness

end Card

/-- PlayerState interface from models/GameState.ts (used for the Runner). -/
structure PlayerState where
  deck : List Card
  hand : List Card
  field : List Card
  npuAvailable : Int
  npuTotal : Int
deriving DecidableEq, Repr

/-- CoreState: the core sub-object of CorpState in models/GameState.ts. -/
structure CoreState where
  maxHp : Int
  currentHp : Int
deriving DecidableEq, Repr

/-- CorpState interface from models/GameState.ts: PlayerState plus the core
health pool. -/
structure CorpState where
  deck : List Card
  hand : List Card
  field : List Card
  npuAvailable : Int
  npuTotal : Int
  core : CoreState
deriving DecidableEq, Repr

/-- GameState interface from models/GameState.ts. -/
structure GameState where
  turn : Int
  activePlayer : PlayerType
  phase : PhaseType
  runner : PlayerState
  corp : CorpState
  eventLog : List LogEntry
  gameOver : Bool
  winner : Option PlayerType
deriving DecidableEq, Repr

namespace GameState

/-- The hand of the given player (the TS code branches on player identically). -/
def handOf (s : GameState) : PlayerType → List Card
  | PlayerType.RUNNER => s.runner.hand
  | PlayerType.CORP => s.corp.hand

/-- The field of the given player. -/
def fieldOf (s : GameState) : PlayerType → List Card
  | PlayerType.RUNNER => s.runner.field
  | PlayerType.CORP => s.corp.field

/-- The deck of the given player. -/
def deckOf (s : GameState) : PlayerType → List Card
  | PlayerType.RUNNER => s.runner.deck
  | PlayerType.CORP => s.corp.deck

/-- The available NPU of the given player. -/
def npuAvailableOf (s : GameState) : PlayerType → Int
  | PlayerType.RUNNER => s.runner.npuAvailable
  | PlayerType.CORP => s.corp.npuAvailable

/-- The total NPU of the given player. -/
def npuTotalOf (s : GameState) : PlayerType → Int
  | PlayerType.RUNNER => s.runner.npuTotal
  | PlayerType.CORP => s.corp.npuTotal

end GameState

/-- Shared helper: append a log entry to the event log, as the various
this.logEvent / inline eventLog appends in the sources do. -/
def pushLog (s : GameState) (message : String) (category : EventType) : GameState :=
  { s with eventLog := s.eventLog ++ [createLogEntry message category] }

namespace GameStateManager

/-- GameStateManager.logEvent (systems/GameStateManager.ts). -/
def logEvent (s : GameState) (message : String) (category : EventType) : GameState :=
  pushLog s message category

/-- GameStateManager.checkWinCondition (systems/GameStateManager.ts lines
331-349): Runner wins when the Corp core HP is 0; Corp wins when the Runner
deck is empty during the DRAW phase. No other condition is checked. -/
def checkWinCondition (s : GameState) : GameState :=
  if s.corp.core.currentHp = 0 then
    logEvent { s with gameOver := true, winner := some PlayerType.RUNNER }
      "Runner wins by reducing Corp core to 0" EventType.GAME
  else if s.runner.deck.length = 0 ∧ s.phase = PhaseType.DRAW then
    logEvent { s with gameOver := true, winner := some PlayerType.CORP }
      "Corp wins by depleting Runner deck" EventType.GAME
  else
    s

/-- GameStateManager.drawCards (systems/GameStateManager.ts lines 102-143).
Moves min(count, deck.length) cards from the front of the deck to the end of
the hand; when the deck is empty it only logs and (for a positive requested
count) runs checkWinCondition — it never throws. -/
def drawCards (s : GameState) (player : PlayerType) (count : Nat) : GameState :=
  let availableCards := min count (s.deckOf player).length
  if availableCards = 0 then
    let s1 := logEvent s "attempted to draw but has no cards left" EventType.GAME
    if 0 < count then checkWinCondition s1 else s1
  else
    match player with
    | PlayerType.RUNNER =>
      let drawnCards := s.runner.deck.take availableCards
      let remainingDeck := s.runner.deck.drop availableCards
      let s1 := { s with runner := { s.runner with
                    deck := remainingDeck,
                    hand := s.runner.hand ++ drawnCards } }
      logEvent s1 "RUNNER drew card(s)" EventType.GAME
    | PlayerType.CORP =>
      let drawnCards := s.corp.deck.take availableCards
      let remainingDeck := s.corp.deck.drop availableCards
      let s1 := { s with corp := { s.corp with
                    deck := remainingDeck,
                    hand := s.corp.hand ++ drawnCards } }
      logEvent s1 "CORP drew card(s)" EventType.GAME

/-- GameStateManager.playCard (systems/GameStateManager.ts lines 151-200).
On an out-of-range index or insufficient NPU it logs a failure message and
returns the (otherwise unchanged) state; on success it removes the card from
the hand, appends it to the field, and debits npuAvailable by the cost.
npuTotal is never touched. -/
def playCard (s : GameState) (player : PlayerType) (cardIndex : Int) : GameState :=
  if cardIndex < 0 ∨ ((s.handOf player).length : Int) ≤ cardIndex then
    logEvent s "Invalid card index" EventType.GAME
  else match (s.handOf player).get? cardIndex.toNat with
  | none => s -- unreachable: the index was bounds-checked above
  | some card =>
    if (s.npuAvailableOf player) < card.cost then
      logEvent s "Not enough NPU to play card" EventType.GAME
    else
      let newHand := (s.handOf player).eraseIdx cardIndex.toNat
      let newField := (s.fieldOf player) ++ [card]
      let newNpuAvailable := (s.npuAvailableOf player) - card.cost
      let s1 :=
        match player with
        | PlayerType.RUNNER =>
          { s with runner := { s.runner with
              hand := newHand, field := newField, npuAvailable := newNpuAvailable } }
        | PlayerType.CORP =>
          { s with corp := { s.corp with
              hand := newHand, field := newField, npuAvailable := newNpuAvailable } }
      logEvent s1 "played card" EventType.CARD

/-- GameStateManager.updateNpu (systems/GameStateManager.ts lines 208-237):
adds amount to npuAvailable with no clamping, and for a positive amount also
adds it to npuTotal. -/
def updateNpu (s : GameState) (player : PlayerType) (amount : Int) : GameState :=
  let s1 :=
    match player with
    | PlayerType.RUNNER =>
      let newAvailable := s.runner.npuAvailable + amount
      let newTotal := if 0 < amount then s.runner.npuTotal + amount else s.runner.npuTotal
      { s with runner := { s.runner with npuAvailable := newAvailable, npuTotal := newTotal } }
    | PlayerType.CORP =>
      let newAvailable := s.corp.npuAvailable + amount
      let newTotal := if 0 < amount then s.corp.npuTotal + amount else s.corp.npuTotal
      { s with corp := { s.corp with npuAvailable := newAvailable, npuTotal := newTotal } }
  if 0 < amount then logEvent s1 "gained NPU" EventType.GAME
  else logEvent s1 "spent NPU" EventType.GAME

/-- GameStateManager.updateCorpHp (systems/GameStateManager.ts lines 244-268):
clamps the new HP into [0, maxHp], logs, and runs checkWinCondition exactly
when the new HP is 0. -/
def updateCorpHp (s : GameState) (amount : Int) : GameState :=
  let newHp := max 0 (min (s.corp.core.currentHp + amount) s.corp.core.maxHp)
  let s1 := { s with corp := { s.corp with core := { s.corp.core with currentHp := newHp } } }
  let s2 :=
    if 0 < amount then logEvent s1 "Corp core repaired" EventType.GAME
    else logEvent s1 "Corp core took damage" EventType.COMBAT
  if newHp = 0 then checkWinCondition s2 else s2

/-- GameStateManager.switchActivePlayer (systems/GameStateManager.ts). -/
def switchActivePlayer (s : GameState) : GameState :=
  let newActivePlayer :=
    if s.activePlayer = PlayerType.RUNNER then PlayerType.CORP else PlayerType.RUNNER
  logEvent { s with activePlayer := newActivePlayer } "turn of new active player" EventType.GAME

/-- GameStateManager.advancePhase (systems/GameStateManager.ts lines 289-325):
DRAW to NPU to MAIN; from MAIN the Runner goes to COMBAT while the Corp goes
straight back to DRAW, switching to the Runner and incrementing the turn;
from COMBAT the Runner goes to DRAW, switching to the Corp (no increment). -/
def advancePhase (s : GameState) : GameState :=
  let step :
      GameState × PhaseType :=
    match s.phase with
    | PhaseType.DRAW => (s, PhaseType.NPU)
    | PhaseType.NPU => (s, PhaseType.MAIN)
    | PhaseType.MAIN =>
      if s.activePlayer = PlayerType.RUNNER then
        (s, PhaseType.COMBAT)
      else
        let t := switchActivePlayer s
        ({ t with turn := t.turn + 1 }, PhaseType.DRAW)
    | PhaseType.COMBAT => (switchActivePlayer s, PhaseType.DRAW)
  logEvent { step.1 with phase := step.2 } "Phase changed" EventType.PHASE

end GameStateManager

namespace ProgramMechanics

/-- ProgramMechanics.calculateEffectiveness (systems/ProgramMechanics.ts):
Fracter programs are 1.5x effective against Barrier ICE, everything else 1.0x. -/
def calculateEffectiveness (program : ProgramCard) (iceType : Option IceType) : ℚ :=
  if program.programType = ProgramType.FRACTER ∧ iceType = some IceType.BARRIER then
    3 / 2
  else
    1

/-- ProgramMechanics.canAttack (systems/ProgramMechanics.ts): in-range field
index, card is a program, phase is COMBAT and the Runner is active. -/
def canAttack (s : GameState) (programIndex : Int) : Bool :=
  if programIndex < 0 ∨ (s.runner.field.length : Int) ≤ programIndex then false
  else match s.runner.field.get? programIndex.toNat with
  | none => false
  | some card =>
    if card.type ≠ CardType.PROGRAM then false
    else if s.phase ≠ PhaseType.COMBAT ∨ s.activePlayer ≠ PlayerType.RUNNER then false
    else true

/-- ProgramMechanics.calculateDamage (systems/ProgramMechanics.ts lines
86-133 of unnamed/part_009): with an ICE type present, the floored product of
the base power and the effectiveness multiplier; otherwise the base power. -/
def calculateDamage (program : ProgramCard) (iceType : Option IceType) : Int :=
  let baseAttack := program.power
  match iceType with
  | some _ =>
    let effectiveness := calculateEffectiveness program iceType
    Int.floor ((baseAttack : ℚ) * effectiveness)
  | none => baseAttack

end ProgramMechanics

namespace ICEMechanics

/-- ICEMechanics.canBlock (systems/ICEMechanics.ts): in-range corp field
index, card is an ICE, phase is COMBAT and the Runner is active. -/
def canBlock (s : GameState) (iceIndex : Int) : Bool :=
  if iceIndex < 0 ∨ (s.corp.field.length : Int) ≤ iceIndex then false
  else match s.corp.field.get? iceIndex.toNat with
  | none => false
  | some ice =>
    if ice.type ≠ CardType.ICE then false
    else if s.phase ≠ PhaseType.COMBAT ∨ s.activePlayer ≠ PlayerType.RUNNER then false
    else true

/-- ICEMechanics.calculateDamage (systems/ICEMechanics.ts lines 114-121):
Barrier ICE deals its power plus one, other ICE deals its power. -/
def calculateDamage (ice : IceCard) : Int :=
  if ice.iceType = IceType.BARRIER then ice.power + 1 else ice.power

end ICEMechanics

namespace PhaseManager

/-- PhaseManager.getNextPhase (the PhaseManager part of systems/ICEMechanics.ts):
the raw cycle DRAW, NPU, MAIN, COMBAT, DRAW. -/
def getNextPhase : PhaseType → PhaseType
  | PhaseType.DRAW => PhaseType.NPU
  | PhaseType.NPU => PhaseType.MAIN
  | PhaseType.MAIN => PhaseType.COMBAT
  | PhaseType.COMBAT => PhaseType.DRAW

/-- The per-card body of PhaseManager.drawCards: draws up to count cards one
at a time, stopping (the break in the source loop) when the deck is empty. -/
def drawCardsLoop (s : GameState) (player : PlayerType) : Nat → GameState
  | 0 => s
  | Nat.succ n =>
    match player with
    | PlayerType.RUNNER =>
      match s.runner.deck with
      | [] => pushLog s "Runner deck is empty, cannot draw more cards" EventType.GAME
      | drawnCard :: remainingDeck =>
        let s1 := pushLog
          { s with runner := { s.runner with
              deck := remainingDeck,
              hand := s.runner.hand ++ [drawnCard] } }
          "Runner drew a card" EventType.CARD
        drawCardsLoop s1 player n
    | PlayerType.CORP =>
      match s.corp.deck with
      | [] => pushLog s "Corp deck is empty, cannot draw more cards" EventType.GAME
      | drawnCard :: remainingDeck =>
        let s1 := pushLog
          { s with corp := { s.corp with
              deck := remainingDeck,
              hand := s.corp.hand ++ [drawnCard] } }
          "Corp drew a card" EventType.CARD
        drawCardsLoop s1 player n

/-- PhaseManager.drawCards. -/
def drawCards (s : GameState) (player : PlayerType) (count : Nat) : GameState :=
  drawCardsLoop s player count

/-- PhaseManager.executeDraw: the active player draws one card. -/
def executeDraw (s : GameState) : GameState :=
  drawCards s s.activePlayer 1

/-- PhaseManager.executeNPU: refresh the active player npuAvailable to the
full npuTotal. -/
def executeNPU (s : GameState) : GameState :=
  match s.activePlayer with
  | PlayerType.RUNNER =>
    pushLog { s with runner := { s.runner with npuAvailable := s.runner.npuTotal } }
      "Runner refreshed NPU" EventType.GAME
  | PlayerType.CORP =>
    pushLog { s with corp := { s.corp with npuAvailable := s.corp.npuTotal } }
      "Corp refreshed NPU" EventType.GAME

/-- PhaseManager.executePhaseEntryActions: draw on DRAW entry, NPU refresh on
NPU entry, nothing on MAIN and COMBAT entry. -/
def executePhaseEntryActions (s : GameState) : GameState :=
  match s.phase with
  | PhaseType.DRAW => executeDraw s
  | PhaseType.NPU => executeNPU s
  | PhaseType.MAIN => s
  | PhaseType.COMBAT => s

/-- PhaseManager.advancePhase (the PhaseManager part of systems/ICEMechanics.ts
lines 217-257): computes the raw next phase, redirects a Corp COMBAT to the
Runner DRAW, hands the turn to the Corp after the Runner COMBAT, increments
the turn exactly when the new state is a Corp DRAW, then runs the phase entry
actions. -/
def advancePhase (s : GameState) : GameState :=
  let currentPhase := s.phase
  let activePlayer := s.activePlayer
  let rawNextPhase := getNextPhase currentPhase
  let nextPhase :=
    if activePlayer = PlayerType.CORP ∧ rawNextPhase = PhaseType.COMBAT then
      PhaseType.DRAW
    else rawNextPhase
  let newActivePlayer0 :=
    if activePlayer = PlayerType.CORP ∧ rawNextPhase = PhaseType.COMBAT then
      PlayerType.RUNNER
    else activePlayer
  let newActivePlayer :=
    if activePlayer = PlayerType.RUNNER ∧ currentPhase = PhaseType.COMBAT then
      PlayerType.CORP
    else newActivePlayer0
  let newTurn :=
    if newActivePlayer = PlayerType.CORP ∧ nextPhase = PhaseType.DRAW then
      s.turn + 1
    else s.turn
  let s1 := pushLog
    { s with phase := nextPhase, activePlayer := newActivePlayer, turn := newTurn }
    "begins phase" EventType.PHASE
  executePhaseEntryActions s1

end PhaseManager

namespace TurnManager

/-- TurnManager.setWinner (systems/TurnManager.ts): marks the game over with
the given winner and logs the win message. -/
def setWinner (s : GameState) (winner : PlayerType) : GameState :=
  let winMessage :=
    if winner = PlayerType.RUNNER then "Runner wins by reducing Corp core to 0 HP!"
    else "Corp wins by exhausting Runner resources!"
  { s with gameOver := true, winner := some winner,
           eventLog := s.eventLog ++ [createLogEntry winMessage EventType.GAME] }

/-- TurnManager.checkWinConditions (systems/TurnManager.ts lines 102-118):
the Runner wins when the Corp core HP is at most 0; the Corp wins when the
Runner has no program on the field, an empty hand and an empty deck. The
state of the Corp zones is never examined. -/
def checkWinConditions (s : GameState) : GameState :=
  if s.corp.core.currentHp ≤ 0 then
    setWinner s PlayerType.RUNNER
  else
    let runnerHasPrograms := s.runner.field.any fun c => decide (c.type = CardType.PROGRAM)
    let runnerHasCards := decide (0 < s.runner.hand.length ∨ 0 < s.runner.deck.length)
    if runnerHasPrograms = false ∧ runnerHasCards = false then
      setWinner s PlayerType.CORP
    else s

end TurnManager

namespace CombatResolver

/-- CombatResolver.applyDamageAndRemoveDestroyed (systems/TurnManager.ts lines
298-359): the program is removed from the Runner field exactly when the ICE
damage reaches its toughness, and the ICE is removed from the Corp field
exactly when the program damage reaches its toughness; removals use
slice-and-concat, preserving the order of the other cards. -/
def applyDamageAndRemoveDestroyed (s : GameState) (programIndex iceIndex : Nat)
    (programDamage iceDamage : Int) : GameState :=
  match s.runner.field.get? programIndex, s.corp.field.get? iceIndex with
  | some (Card.program program), some (Card.ice ice) =>
    let isProgramDestroyed := program.toughness ≤ iceDamage
    let isIceDestroyed := ice.toughness ≤ programDamage
    let s1 :=
      if isProgramDestroyed then
        pushLog { s with runner := { s.runner with
            field := s.runner.field.eraseIdx programIndex } }
          "program is destroyed" EventType.COMBAT
      else s
    if isIceDestroyed then
      pushLog { s1 with corp := { s1.corp with
          field := s1.corp.field.eraseIdx iceIndex } }
        "ICE is destroyed" EventType.COMBAT
    else s1
  | _, _ => s

/-- CombatResolver.resolveCombat (systems/TurnManager.ts lines 259-287): both
damage values are computed from the incoming (pre-combat) state, logged, and
then applied by applyDamageAndRemoveDestroyed. -/
def resolveCombat (s : GameState) (programIndex iceIndex : Nat) : GameState :=
  match s.runner.field.get? programIndex, s.corp.field.get? iceIndex with
  | some (Card.program program), some (Card.ice ice) =>
    let programDamage := ProgramMechanics.calculateDamage program (some ice.iceType)
    let iceDamage := ICEMechanics.calculateDamage ice
    let s1 := pushLog (pushLog s "program deals damage to ICE" EventType.COMBAT)
      "ICE deals damage to program" EventType.COMBAT
    applyDamageAndRemoveDestroyed s1 programIndex iceIndex programDamage iceDamage
  | _, _ => s

end CombatResolver

/-- ActionType from models/UserAction.ts. -/
inductive ActionType where
  | PLAY_NPU
  | PLAY_CARD
  | SELECT_CARD
  | ATTACK
  | BLOCK
  | END_PHASE
  | USE_ABILITY
  | HELP
  | SAVE
  | LOAD
  | QUIT
deriving DecidableEq, Repr

/-- PlayCardPayload from models/UserAction.ts. -/
structure PlayCardPayload where
  cardIndex : Int
  cardType : CardType
deriving DecidableEq, Repr

/-- AttackPayload from models/UserAction.ts (the optional targetIndex is not
consumed by the ActionProcessor and is omitted). -/
structure AttackPayload where
  programIndex : Int
deriving DecidableEq, Repr

/-- The ActionPayload union from models/UserAction.ts (SelectCardPayload is
not consumed by the ActionProcessor and is represented by its own variant). -/
inductive ActionPayload where
  | playCardP (p : PlayCardPayload)
  | attackP (p : AttackPayload)
  | selectCardP (cardIndex : Int) (isOpponentCard : Bool)
deriving DecidableEq, Repr

/-- UserAction from models/UserAction.ts. -/
structure UserAction where
  type : ActionType
  payload : Option ActionPayload
deriving DecidableEq, Repr

namespace ActionProcessor

/-- ActionProcessor.isActionAllowed (systems/ActionProcessor.ts lines
97-123): the static phase permission table. -/
def isActionAllowed (action : UserAction) (s : GameState) : Bool :=
  if action.type = ActionType.END_PHASE ∨ action.type = ActionType.HELP ∨
     action.type = ActionType.QUIT ∨ action.type = ActionType.SAVE ∨
     action.type = ActionType.LOAD then
    true
  else
    match action.type with
    | ActionType.PLAY_NPU => decide (s.phase = PhaseType.MAIN)
    | ActionType.PLAY_CARD => decide (s.phase = PhaseType.MAIN)
    | ActionType.ATTACK => decide (s.phase = PhaseType.COMBAT)
    | ActionType.BLOCK =>
      decide (s.phase = PhaseType.COMBAT ∧ s.activePlayer = PlayerType.RUNNER)
    | ActionType.USE_ABILITY => decide (s.phase = PhaseType.MAIN)
    | _ => false

/-- ActionProcessor.validateAction (systems/ActionProcessor.ts lines 67-89):
rejects everything but QUIT once the game is over, rejects non-meta actions
during the Corp turn, and otherwise applies the phase permission table. -/
def validateAction (action : UserAction) (s : GameState) : Except String Unit :=
  if s.gameOver then
    if action.type = ActionType.QUIT then Except.ok ()
    else Except.error "Game is over. No further actions allowed except QUIT."
  else if s.activePlayer = PlayerType.CORP then
    if action.type = ActionType.QUIT ∨ action.type = ActionType.HELP ∨
       action.type = ActionType.SAVE ∨ action.type = ActionType.LOAD then
      Except.ok ()
    else Except.error "Cannot perform actions during Corp turn."
  else if isActionAllowed action s then Except.ok ()
  else Except.error "Action is not allowed in the current phase."

/-- ActionProcessor.processPlayNpu: requires a PlayCardPayload whose cardType
is NPU, then delegates to GameStateManager.playCard for the Runner. -/
def processPlayNpu (s : GameState) (action : UserAction) : Except String GameState :=
  match action.payload with
  | some (ActionPayload.playCardP payload) =>
    if payload.cardType ≠ CardType.NPU then Except.error "Invalid NPU card"
    else Except.ok (GameStateManager.playCard s PlayerType.RUNNER payload.cardIndex)
  | _ => Except.error "Invalid NPU card"

/-- ActionProcessor.processPlayCard: requires a PlayCardPayload whose
cardType is not NPU, then delegates to GameStateManager.playCard. -/
def processPlayCard (s : GameState) (action : UserAction) : Except String GameState :=
  match action.payload with
  | some (ActionPayload.playCardP payload) =>
    if payload.cardType = CardType.NPU then
      Except.error "Invalid card type for PLAY_CARD action"
    else Except.ok (GameStateManager.playCard s PlayerType.RUNNER payload.cardIndex)
  | _ => Except.error "Invalid card type for PLAY_CARD action"

/-- ActionProcessor.processAttack (systems/ActionProcessor.ts lines 156-177):
validates the attacker field index, then deals that card raw power (0 when the
power field is absent) straight to the Corp core via updateCorpHp — no
blocker and no CombatResolver involved. -/
def processAttack (s : GameState) (action : UserAction) : Except String GameState :=
  match action.payload with
  | some (ActionPayload.attackP payload) =>
    if payload.programIndex < 0 ∨ (s.runner.field.length : Int) ≤ payload.programIndex then
      Except.error "Invalid program index for attack"
    else match s.runner.field.get? payload.programIndex.toNat with
    | none => Except.error "Invalid program index for attack" -- unreachable after the bounds check
    | some card =>
      let attackPower := card.powerOpt.getD 0
      Except.ok (GameStateManager.updateCorpHp s (-attackPower))
  | _ => Except.error "Missing payload for ATTACK action"

/-- ActionProcessor.processAction (systems/ActionProcessor.ts lines 29-62):
validate, then dispatch on the action type; the unlisted action types fall in
the default branch and are reported as unknown. -/
def processAction (s : GameState) (action : UserAction) : Except String GameState :=
  match validateAction action s with
  | Except.error e => Except.error e
  | Except.ok _ =>
  match action.type with
  | ActionType.PLAY_NPU => processPlayNpu s action
  | ActionType.PLAY_CARD => processPlayCard s action
  | ActionType.ATTACK => processAttack s action
  | ActionType.END_PHASE => Except.ok (GameStateManager.advancePhase s)
  | ActionType.HELP => Except.ok s
  | ActionType.QUIT => Except.ok { s with gameOver := true }
  | _ => Except.error "Unknown action type"

end ActionProcessor

/-- The spec invariant: the COMBAT phase only occurs on the Runner turn. -/
def combatInvariant (s : GameState) : Prop :=
  s.phase = PhaseType.COMBAT → s.activePlayer = PlayerType.RUNNER

instance (s : GameState) : Decidable (combatInvariant s) := by
  unfold combatInvariant; infer_instance

/-- n applications of the EndPhase transition of GameStateManager (the
transition the EndPhase action delegates to via ActionProcessor). -/
def endPhaseIter (s : GameState) : Nat → GameState
  | 0 => s
  | Nat.succ n => GameStateManager.advancePhase (endPhaseIter s n)

/-- n applications of the PhaseManager phase transition. -/
def pmPhaseIter (s : GameState) : Nat → GameState
  | 0 => s
  | Nat.succ n => PhaseManager.advancePhase (pmPhaseIter s n)

/-- A sample NPU (resource) card. -/
def sampleNpuCard : Card :=
  Card.npu { id := "npu-1", name := "NPU", cost := 1, ascii := [], flavorText := "" }

/-- A sample Fracter program of power 2 and toughness 2. -/
def sampleFracter : ProgramCard :=
  { id := "prog-1", name := "Fracter", cost := 1, power := 2, toughness := 2,
    programType := ProgramType.FRACTER, ascii := [], flavorText := "" }

/-- A sample Barrier ICE of power 2 and toughness 3. -/
def sampleBarrier : IceCard :=
  { id := "ice-1", name := "Barrier", cost := 1, power := 2, toughness := 3,
    iceType := IceType.BARRIER }

/-- An empty Runner side. -/
def emptyRunner : PlayerState :=
  { deck := [], hand := [], field := [], npuAvailable := 0, npuTotal := 0 }

/-- An empty Corp side with a healthy core. -/
def emptyCorp : CorpState :=
  { deck := [], hand := [], field := [], npuAvailable := 0, npuTotal := 0,
    core := { maxHp := 5, currentHp := 5 } }

/-- A minimal base game state used to build the concrete scenarios below. -/
def baseState : GameState :=
  { turn := 1, activePlayer := PlayerType.RUNNER, phase := PhaseType.DRAW,
    runner := emptyRunner, corp := emptyCorp, eventLog := [],
    gameOver := false, winner := none }

/-- Scenario for the empty-deck draw claim: the Corp (Defender) enters its
DRAW phase with an empty deck while the Runner still has a deck. -/
def drawScenario : GameState :=
  { baseState with
      activePlayer := PlayerType.CORP,
      phase := PhaseType.DRAW,
      runner := { emptyRunner with deck := [sampleNpuCard] } }

/-- Scenario for the resource-card play claim: the Runner holds one NPU card
and has 2 available of 2 total NPU. -/
def playNpuScenario : GameState :=
  { baseState with
      phase := PhaseType.MAIN,
      runner := { emptyRunner with hand := [sampleNpuCard], npuAvailable := 2, npuTotal := 2 } }

/-- Scenario for the attrition claim: the Corp (Defender) has no cards
anywhere and a healthy core, while the Runner still holds a card. -/
def attritionScenario : GameState :=
  { baseState with
      activePlayer := PlayerType.CORP,
      phase := PhaseType.MAIN,
      runner := { emptyRunner with hand := [sampleNpuCard] } }

/-- Scenario for the exhausted-Runner amended attrition claim: the Runner has
no program on the field, no hand and no deck. -/
def runnerExhaustedScenario : GameState :=
  { baseState with
      activePlayer := PlayerType.CORP,
      phase := PhaseType.MAIN,
      corp := { emptyCorp with deck := [sampleNpuCard] } }

/-- Scenario for the validation claims: Runner MAIN phase with an empty hand. -/
def invalidIndexScenario : GameState :=
  { baseState with phase := PhaseType.MAIN }

/-- The PLAY_CARD action with an out-of-range hand index 5. -/
def invalidIndexAction : UserAction :=
  { type := ActionType.PLAY_CARD,
    payload := some (ActionPayload.playCardP { cardIndex := 5, cardType := CardType.PROGRAM }) }

/-- Scenario for the attack claim: Runner COMBAT phase with one Fracter on
the Runner field. -/
def attackScenario : GameState :=
  { baseState with
      phase := PhaseType.COMBAT,
      runner := { emptyRunner with field := [Card.program sampleFracter] } }

/-- Scenario for the combat-resolution claim: one Fracter on the Runner
field against one Barrier on the Corp field. -/
def combatScenario : GameState :=
  { baseState with
      phase := PhaseType.COMBAT,
      runner := { emptyRunner with field := [Card.program sampleFracter] },
      corp := { emptyCorp with field := [Card.ice sampleBarrier] } }

/-- C8 counterexample: the claim says updateNpu clamps npuAvailable into
[0, npuTotal] and leaves npuTotal unchanged. At a state with 0 available of 0
total, adding 2 yields available 2 (the clamp would yield 0) and total 2 (the
claim would leave it 0). -/
theorem updateNpu_clamp_counterexample :
    (GameStateManager.updateNpu baseState PlayerType.RUNNER 2).runner.npuAvailable = 2
    ∧ max 0 (min (baseState.runner.npuAvailable + 2) baseState.runner.npuTotal) = 0
    ∧ (GameStateManager.updateNpu baseState PlayerType.RUNNER 2).runner.npuTotal = 2
    ∧ baseState.runner.npuTotal = 0 := by
  decide

/-- C8 amended: updateNpu adds the delta to npuAvailable with no clamping at
either end, and for a strictly positive delta also adds the delta to
npuTotal (npuTotal is unchanged for a nonpositive delta). -/
theorem updateNpu_adds_without_clamping (s : GameState) (player : PlayerType) (amount : Int) :
    (GameStateManager.updateNpu s player amount).npuAvailableOf player
      = s.npuAvailableOf player + amount
    ∧ (GameStateManager.updateNpu s player amount).npuTotalOf player
      = (if 0 < amount then s.npuTotalOf player + amount else s.npuTotalOf player) := by
  cases player <;>
    simp [GameStateManager.updateNpu, GameState.npuAvailableOf, GameState.npuTotalOf,
      GameStateManager.logEvent, pushLog] <;>
    split <;> simp

/-- C6: a Fracter program deals the floor of 1.5 times its power against a
Barrier ICE, and its unmodified power against every other pairing and when
unblocked; a Barrier ICE deals its power plus 1, any other ICE its power; in
particular the power-2 Fracter deals 2 unblocked and 3 against a Barrier. -/
theorem damage_effectiveness_rule :
    (∀ (program : ProgramCard) (it : IceType),
      ProgramMechanics.calculateDamage program (some it) =
        if program.programType = ProgramType.FRACTER ∧ it = IceType.BARRIER then
          Int.floor ((3 / 2 : ℚ) * program.power)
        else program.power)
    ∧ (∀ program : ProgramCard, ProgramMechanics.calculateDamage program none = program.power)
    ∧ (∀ ice : IceCard, ICEMechanics.calculateDamage ice =
        if ice.iceType = IceType.BARRIER then ice.power + 1 else ice.power)
    ∧ ProgramMechanics.calculateDamage sampleFracter none = 2
    ∧ ProgramMechanics.calculateDamage sampleFracter (some IceType.BARRIER) = 3 := by
  refine ⟨?_, ?_, ?_, ?_, ?_⟩
  · intro program it
    by_cases hc : program.programType = ProgramType.FRACTER ∧ it = IceType.BARRIER
    · simp [ProgramMechanics.calculateDamage, ProgramMechanics.calculateEffectiveness, hc,
        mul_comm]
    · simp [ProgramMechanics.calculateDamage, ProgramMechanics.calculateEffectiveness, hc]
  · intro program
    simp [ProgramMechanics.calculateDamage]
  · intro ice
    simp [ICEMechanics.calculateDamage]
  · simp [ProgramMechanics.calculateDamage, sampleFracter]
  · norm_num [ProgramMechanics.calculateDamage, ProgramMechanics.calculateEffectiveness,
      sampleFracter]

/-- C2 counterexample: the claim says playing a Resource (NPU) card also
increments npuTotal by 1. Playing the NPU card in hand (cost 1, 2 available
of 2 total) succeeds — the card moves to the field and available NPU drops to
1 — but npuTotal stays 2 instead of becoming 3. -/
theorem playCard_npu_total_counterexample :
    sampleNpuCard.type = CardType.NPU
    ∧ (GameStateManager.playCard playNpuScenario PlayerType.RUNNER 0).runner.hand = []
    ∧ (GameStateManager.playCard playNpuScenario PlayerType.RUNNER 0).runner.field
        = [sampleNpuCard]
    ∧ (GameStateManager.playCard playNpuScenario PlayerType.RUNNER 0).runner.npuAvailable = 1
    ∧ (GameStateManager.playCard playNpuScenario PlayerType.RUNNER 0).runner.npuTotal = 2
    ∧ ¬((GameStateManager.playCard playNpuScenario PlayerType.RUNNER 0).runner.npuTotal
        = playNpuScenario.runner.npuTotal + 1) := by
  decide

/-- C2 amended: for every side and in-range hand index with affordable cost,
playCard removes the card from the hand, appends it to the field tail and
debits npuAvailable by exactly the cost — and leaves npuTotal unchanged for
every card category, Resource (NPU) cards included. -/
theorem playCard_moves_card_and_keeps_total (s : GameState) (player : PlayerType)
    (cardIndex : Int) (card : Card)
    (h0 : 0 ≤ cardIndex) (h1 : cardIndex < ((s.handOf player).length : Int))
    (hcard : (s.handOf player).get? cardIndex.toNat = some card)
    (hcost : card.cost ≤ s.npuAvailableOf player) :
    (GameStateManager.playCard s player cardIndex).handOf player
        = (s.handOf player).eraseIdx cardIndex.toNat
    ∧ (GameStateManager.playCard s player cardIndex).fieldOf player
        = s.fieldOf player ++ [card]
    ∧ (GameStateManager.playCard s player cardIndex).npuAvailableOf player
        = s.npuAvailableOf player - card.cost
    ∧ (GameStateManager.playCard s player cardIndex).npuTotalOf player
        = s.npuTotalOf player := by
  have hnot : ¬(cardIndex < 0 ∨ ((s.handOf player).length : Int) ≤ cardIndex) := by omega
  have hnotlt : ¬(s.npuAvailableOf player < card.cost) := not_lt.mpr hcost
  cases player <;>
    simp only [GameState.handOf, GameState.fieldOf, GameState.npuAvailableOf,
      GameState.npuTotalOf] at hnot hcard hnotlt ⊢ <;>
    simp only [GameStateManager.playCard, GameState.handOf, GameState.fieldOf,
      GameState.npuAvailableOf, GameState.npuTotalOf, if_neg hnot, hcard, if_neg hnotlt,
      GameStateManager.logEvent, pushLog] <;>
    simp

/-- C1 counterexample: the claim says that when the Defender (Corp) enters
its Draw phase with an empty deck, invoking the draw sets gameOver with the
Intruder (Runner) as winner. In the concrete scenario — Corp active in the
DRAW phase, Corp deck empty, core at 5 HP, Runner deck nonempty — the Corp
draw leaves the game not over and without a winner: checkWinCondition never
inspects the Corp deck. -/
theorem corp_empty_deck_draw_counterexample :
    drawScenario.phase = PhaseType.DRAW
    ∧ drawScenario.activePlayer = PlayerType.CORP
    ∧ drawScenario.corp.deck = []
    ∧ (GameStateManager.drawCards drawScenario PlayerType.CORP 1).gameOver = false
    ∧ (GameStateManager.drawCards drawScenario PlayerType.CORP 1).winner = none := by
  decide

/-- C1 amended: drawCards from an empty deck never throws (it is a total
function into states) and runs the win check atomically with the attempted
draw, but the only deck-out loss implemented is the Runner one: a Runner
empty-deck draw in the DRAW phase (core HP nonzero) sets gameOver with the
Corp — the Defender, not the Intruder — as winner, while a Corp empty-deck
draw (Runner deck nonempty, core HP nonzero) leaves gameOver and winner
unchanged. -/
theorem drawCards_empty_deck_loss_trigger (s : GameState) (count : Nat) :
    (s.runner.deck = [] → s.phase = PhaseType.DRAW → s.corp.core.currentHp ≠ 0 → 0 < count →
      (GameStateManager.drawCards s PlayerType.RUNNER count).gameOver = true
      ∧ (GameStateManager.drawCards s PlayerType.RUNNER count).winner = some PlayerType.CORP)
    ∧ (s.corp.deck = [] → s.runner.deck ≠ [] → s.corp.core.currentHp ≠ 0 →
      (GameStateManager.drawCards s PlayerType.CORP count).gameOver = s.gameOver
      ∧ (GameStateManager.drawCards s PlayerType.CORP count).winner = s.winner) := by
  constructor
  · intro hdeck hphase hhp hcount
    simp [GameStateManager.drawCards, GameState.deckOf, hdeck, GameStateManager.checkWinCondition, GameStateManager.logEvent, pushLog, hphase, hhp,
      hcount]
  · intro hdeck hrdeck hhp
    rcases Nat.eq_zero_or_pos count with hc | hc
    · subst hc
      simp [GameStateManager.drawCards, GameState.deckOf, hdeck,
        GameStateManager.logEvent, pushLog]
    · simp [GameStateManager.drawCards, GameState.deckOf, hdeck, hc,
        GameStateManager.checkWinCondition, GameStateManager.logEvent, pushLog, hhp,
        List.length_eq_zero, hrdeck]

/-- C1 witness: the amended theorem applied to a concrete Runner state whose
deck is empty in the DRAW phase. -/
theorem drawCards_empty_deck_loss_trigger_witness :
    (GameStateManager.drawCards baseState PlayerType.RUNNER 1).gameOver = true
    ∧ (GameStateManager.drawCards baseState PlayerType.RUNNER 1).winner
        = some PlayerType.CORP :=
  (drawCards_empty_deck_loss_trigger baseState 1).1 rfl rfl (by decide) (by decide)

/-- C3 counterexample: the claim says an exhausted Defender (positive core
health, no Corp units/hand/deck) makes the terminal check declare the
Intruder the winner. In the concrete scenario — Corp core at 5 HP, all Corp
zones empty, Runner still holding a card — checkWinConditions leaves the game
not over: it only ever examines the Runner resources. -/
theorem defender_attrition_counterexample :
    0 < attritionScenario.corp.core.currentHp
    ∧ attritionScenario.corp.field = []
    ∧ attritionScenario.corp.hand = []
    ∧ attritionScenario.corp.deck = []
    ∧ (TurnManager.checkWinConditions attritionScenario).gameOver = false
    ∧ (TurnManager.checkWinConditions attritionScenario).winner = none := by
  decide

/-- C3 amended: the attrition condition implemented by checkWinConditions is
the mirror image of the claim — when the Intruder (Runner) has no program on
the field, an empty hand and an empty deck while the Defender core health is
positive, the check sets gameOver with the Defender (Corp) as winner; a
second call re-derives the same verdict, leaving gameOver, winner and every
game zone unchanged (it is idempotent up to appending a duplicate win log
entry). -/
theorem attrition_sets_corp_winner (s : GameState)
    (hhp : 0 < s.corp.core.currentHp)
    (hprog : s.runner.field.any (fun c => decide (c.type = CardType.PROGRAM)) = false)
    (hh : s.runner.hand = []) (hd : s.runner.deck = []) :
    (TurnManager.checkWinConditions s).gameOver = true
    ∧ (TurnManager.checkWinConditions s).winner = some PlayerType.CORP
    ∧ (TurnManager.checkWinConditions (TurnManager.checkWinConditions s)).gameOver = true
    ∧ (TurnManager.checkWinConditions (TurnManager.checkWinConditions s)).winner
        = some PlayerType.CORP
    ∧ (TurnManager.checkWinConditions (TurnManager.checkWinConditions s)).runner
        = (TurnManager.checkWinConditions s).runner
    ∧ (TurnManager.checkWinConditions (TurnManager.checkWinConditions s)).corp
        = (TurnManager.checkWinConditions s).corp
    ∧ (TurnManager.checkWinConditions (TurnManager.checkWinConditions s)).turn
        = (TurnManager.checkWinConditions s).turn
    ∧ (TurnManager.checkWinConditions (TurnManager.checkWinConditions s)).phase
        = (TurnManager.checkWinConditions s).phase
    ∧ (TurnManager.checkWinConditions (TurnManager.checkWinConditions s)).activePlayer
        = (TurnManager.checkWinConditions s).activePlayer := by
  have hnot : ¬(s.corp.core.currentHp ≤ 0) := not_le.mpr hhp
  simp [TurnManager.checkWinConditions, TurnManager.setWinner, hnot, hprog, hh, hd]

/-- C3 witness: the amended theorem applied to a concrete state in which the
Runner is exhausted. -/
theorem attrition_sets_corp_winner_witness :
    (TurnManager.checkWinConditions runnerExhaustedScenario).gameOver = true
    ∧ (TurnManager.checkWinConditions runnerExhaustedScenario).winner
        = some PlayerType.CORP
    ∧ (TurnManager.checkWinConditions
        (TurnManager.checkWinConditions runnerExhaustedScenario)).gameOver = true
    ∧ (TurnManager.checkWinConditions
        (TurnManager.checkWinConditions runnerExhaustedScenario)).winner
        = some PlayerType.CORP
    ∧ (TurnManager.checkWinConditions
        (TurnManager.checkWinConditions runnerExhaustedScenario)).runner
        = (TurnManager.checkWinConditions runnerExhaustedScenario).runner
    ∧ (TurnManager.checkWinConditions
        (TurnManager.checkWinConditions runnerExhaustedScenario)).corp
        = (TurnManager.checkWinConditions runnerExhaustedScenario).corp
    ∧ (TurnManager.checkWinConditions
        (TurnManager.checkWinConditions runnerExhaustedScenario)).turn
        = (TurnManager.checkWinConditions runnerExhaustedScenario).turn
    ∧ (TurnManager.checkWinConditions
        (TurnManager.checkWinConditions runnerExhaustedScenario)).phase
        = (TurnManager.checkWinConditions runnerExhaustedScenario).phase
    ∧ (TurnManager.checkWinConditions
        (TurnManager.checkWinConditions runnerExhaustedScenario)).activePlayer
        = (TurnManager.checkWinConditions runnerExhaustedScenario).activePlayer :=
  attrition_sets_corp_winner runnerExhaustedScenario (by decide) (by decide) rfl rfl

/-- C2 witness: the amended playCard theorem applied to the concrete NPU-play
scenario. -/
theorem playCard_moves_card_and_keeps_total_witness :
    (GameStateManager.playCard playNpuScenario PlayerType.RUNNER 0).handOf PlayerType.RUNNER
        = (playNpuScenario.handOf PlayerType.RUNNER).eraseIdx 0
    ∧ (GameStateManager.playCard playNpuScenario PlayerType.RUNNER 0).fieldOf PlayerType.RUNNER
        = playNpuScenario.fieldOf PlayerType.RUNNER ++ [sampleNpuCard]
    ∧ (GameStateManager.playCard playNpuScenario PlayerType.RUNNER 0).npuAvailableOf
        PlayerType.RUNNER
        = playNpuScenario.npuAvailableOf PlayerType.RUNNER - sampleNpuCard.cost
    ∧ (GameStateManager.playCard playNpuScenario PlayerType.RUNNER 0).npuTotalOf
        PlayerType.RUNNER
        = playNpuScenario.npuTotalOf PlayerType.RUNNER :=
  playCard_moves_card_and_keeps_total playNpuScenario PlayerType.RUNNER 0 sampleNpuCard
    (by decide) (by decide) (by decide) (by decide)

/-- Projection facts for one GameStateManager.advancePhase step out of DRAW. -/
theorem gsAdvance_from_draw (s : GameState) (h : s.phase = PhaseType.DRAW) :
    (GameStateManager.advancePhase s).phase = PhaseType.NPU
    ∧ (GameStateManager.advancePhase s).activePlayer = s.activePlayer
    ∧ (GameStateManager.advancePhase s).turn = s.turn := by
  simp [GameStateManager.advancePhase, h, GameStateManager.logEvent, pushLog]

/-- Projection facts for one GameStateManager.advancePhase step out of NPU. -/
theorem gsAdvance_from_npu (s : GameState) (h : s.phase = PhaseType.NPU) :
    (GameStateManager.advancePhase s).phase = PhaseType.MAIN
    ∧ (GameStateManager.advancePhase s).activePlayer = s.activePlayer
    ∧ (GameStateManager.advancePhase s).turn = s.turn := by
  simp [GameStateManager.advancePhase, h, GameStateManager.logEvent, pushLog]

/-- Projection facts for one GameStateManager.advancePhase step out of the
Runner MAIN phase. -/
theorem gsAdvance_from_main_runner (s : GameState) (h : s.phase = PhaseType.MAIN)
    (ha : s.activePlayer = PlayerType.RUNNER) :
    (GameStateManager.advancePhase s).phase = PhaseType.COMBAT
    ∧ (GameStateManager.advancePhase s).activePlayer = PlayerType.RUNNER
    ∧ (GameStateManager.advancePhase s).turn = s.turn := by
  simp [GameStateManager.advancePhase, h, ha, GameStateManager.logEvent, pushLog]

/-- Projection facts for one GameStateManager.advancePhase step out of the
Corp MAIN phase: back to the Runner DRAW with the turn incremented. -/
theorem gsAdvance_from_main_corp (s : GameState) (h : s.phase = PhaseType.MAIN)
    (ha : s.activePlayer = PlayerType.CORP) :
    (GameStateManager.advancePhase s).phase = PhaseType.DRAW
    ∧ (GameStateManager.advancePhase s).activePlayer = PlayerType.RUNNER
    ∧ (GameStateManager.advancePhase s).turn = s.turn + 1 := by
  simp [GameStateManager.advancePhase, h, ha, GameStateManager.switchActivePlayer,
    GameStateManager.logEvent, pushLog]

/-- Projection facts for one GameStateManager.advancePhase step out of the
Runner COMBAT phase: to the Corp DRAW with the turn unchanged. -/
theorem gsAdvance_from_combat_runner (s : GameState) (h : s.phase = PhaseType.COMBAT)
    (ha : s.activePlayer = PlayerType.RUNNER) :
    (GameStateManager.advancePhase s).phase = PhaseType.DRAW
    ∧ (GameStateManager.advancePhase s).activePlayer = PlayerType.CORP
    ∧ (GameStateManager.advancePhase s).turn = s.turn := by
  simp [GameStateManager.advancePhase, h, ha, GameStateManager.switchActivePlayer,
    GameStateManager.logEvent, pushLog]

/-- C4: from the Runner (Intruder) DRAW phase, four EndPhase transitions
return to DRAW with the Corp (Defender) active and the turn unchanged; three
further transitions return to the Runner DRAW with the turn incremented by
exactly 1, the increment occurring only on the final, Corp-to-Runner
transition (the turn is unchanged after each of the first six steps). -/
theorem phase_cycle_turn_increment (s : GameState)
    (hphase : s.phase = PhaseType.DRAW)
    (hactive : s.activePlayer = PlayerType.RUNNER)
    (_hover : s.gameOver = false) :
    (endPhaseIter s 1).turn = s.turn
    ∧ (endPhaseIter s 2).turn = s.turn
    ∧ (endPhaseIter s 3).turn = s.turn
    ∧ (endPhaseIter s 4).phase = PhaseType.DRAW
    ∧ (endPhaseIter s 4).activePlayer = PlayerType.CORP
    ∧ (endPhaseIter s 4).turn = s.turn
    ∧ (endPhaseIter s 5).turn = s.turn
    ∧ (endPhaseIter s 6).turn = s.turn
    ∧ (endPhaseIter s 7).phase = PhaseType.DRAW
    ∧ (endPhaseIter s 7).activePlayer = PlayerType.RUNNER
    ∧ (endPhaseIter s 7).turn = s.turn + 1 := by
  simp only [endPhaseIter]
  obtain ⟨p1, a1, t1⟩ := gsAdvance_from_draw s hphase
  rw [hactive] at a1
  obtain ⟨p2, a2, t2⟩ := gsAdvance_from_npu _ p1
  rw [a1] at a2
  obtain ⟨p3, a3, t3⟩ := gsAdvance_from_main_runner _ p2 a2
  obtain ⟨p4, a4, t4⟩ := gsAdvance_from_combat_runner _ p3 a3
  obtain ⟨p5, a5, t5⟩ := gsAdvance_from_draw _ p4
  rw [a4] at a5
  obtain ⟨p6, a6, t6⟩ := gsAdvance_from_npu _ p5
  rw [a5] at a6
  obtain ⟨p7, a7, t7⟩ := gsAdvance_from_main_corp _ p6 a6
  have t12 := t2.trans t1
  have t13 := t3.trans t12
  have t14 := t4.trans t13
  have t15 := t5.trans t14
  have t16 := t6.trans t15
  refine ⟨t1, t12, t13, p4, a4, t14, t15, t16, p7, a7, ?_⟩
  rw [t7, t16]

/-- C4 witness: the phase-cycle theorem applied to the base state. -/
theorem phase_cycle_turn_increment_witness :
    (endPhaseIter baseState 1).turn = baseState.turn
    ∧ (endPhaseIter baseState 2).turn = baseState.turn
    ∧ (endPhaseIter baseState 3).turn = baseState.turn
    ∧ (endPhaseIter baseState 4).phase = PhaseType.DRAW
    ∧ (endPhaseIter baseState 4).activePlayer = PlayerType.CORP
    ∧ (endPhaseIter baseState 4).turn = baseState.turn
    ∧ (endPhaseIter baseState 5).turn = baseState.turn
    ∧ (endPhaseIter baseState 6).turn = baseState.turn
    ∧ (endPhaseIter baseState 7).phase = PhaseType.DRAW
    ∧ (endPhaseIter baseState 7).activePlayer = PlayerType.RUNNER
    ∧ (endPhaseIter baseState 7).turn = baseState.turn + 1 :=
  phase_cycle_turn_increment baseState rfl rfl rfl

/-- The phase of the PhaseManager draw loop equals the incoming phase: the
loop only moves cards and logs. -/
theorem drawCardsLoop_phase (player : PlayerType) :
    ∀ (n : Nat) (s : GameState),
      (PhaseManager.drawCardsLoop s player n).phase = s.phase := by
  intro n
  induction n with
  | zero => intro s; simp [PhaseManager.drawCardsLoop]
  | succ n ih =>
    intro s
    cases player
    · cases hd : s.runner.deck with
      | nil => simp [PhaseManager.drawCardsLoop, hd, pushLog]
      | cons c rest =>
        simp only [PhaseManager.drawCardsLoop, hd]
        exact ih _
    · cases hd : s.corp.deck with
      | nil => simp [PhaseManager.drawCardsLoop, hd, pushLog]
      | cons c rest =>
        simp only [PhaseManager.drawCardsLoop, hd]
        exact ih _

/-- The active player of the PhaseManager draw loop equals the incoming one. -/
theorem drawCardsLoop_activePlayer (player : PlayerType) :
    ∀ (n : Nat) (s : GameState),
      (PhaseManager.drawCardsLoop s player n).activePlayer = s.activePlayer := by
  intro n
  induction n with
  | zero => intro s; simp [PhaseManager.drawCardsLoop]
  | succ n ih =>
    intro s
    cases player
    · cases hd : s.runner.deck with
      | nil => simp [PhaseManager.drawCardsLoop, hd, pushLog]
      | cons c rest =>
        simp only [PhaseManager.drawCardsLoop, hd]
        exact ih _
    · cases hd : s.corp.deck with
      | nil => simp [PhaseManager.drawCardsLoop, hd, pushLog]
      | cons c rest =>
        simp only [PhaseManager.drawCardsLoop, hd]
        exact ih _

/-- One GameStateManager.advancePhase step always lands in a state where the
COMBAT phase implies the Runner is active. -/
theorem gs_advancePhase_combatInvariant (s : GameState) :
    combatInvariant (GameStateManager.advancePhase s) := by
  rcases hph : s.phase <;> rcases hac : s.activePlayer <;>
    simp [combatInvariant, GameStateManager.advancePhase, hph, hac,
      GameStateManager.switchActivePlayer, GameStateManager.logEvent, pushLog]

/-- One PhaseManager.advancePhase step always lands in a state where the
COMBAT phase implies the Runner is active. -/
theorem pm_advancePhase_combatInvariant (s : GameState) :
    combatInvariant (PhaseManager.advancePhase s) := by
  rcases hph : s.phase <;> rcases hac : s.activePlayer <;>
    simp [combatInvariant, PhaseManager.advancePhase, PhaseManager.getNextPhase, hph, hac,
      PhaseManager.executePhaseEntryActions, PhaseManager.executeDraw, PhaseManager.executeNPU,
      PhaseManager.drawCards, drawCardsLoop_phase, drawCardsLoop_activePlayer, pushLog]

/-- C9: starting from any state satisfying the invariant, every state
reachable by iterating either phase-advancement implementation
(GameStateManager.advancePhase, the one the EndPhase action uses, and
PhaseManager.advancePhase) satisfies it too: the COMBAT phase occurs only
with the Runner (Intruder) active, so the Corp (Defender) never enters
COMBAT. -/
theorem combat_phase_only_for_runner (s : GameState) (h : combatInvariant s) (n : Nat) :
    combatInvariant (endPhaseIter s n) ∧ combatInvariant (pmPhaseIter s n) := by
  induction n with
  | zero => exact ⟨h, h⟩
  | succ n _ =>
    exact ⟨gs_advancePhase_combatInvariant _, pm_advancePhase_combatInvariant _⟩

/-- C9 witness: the invariant preservation theorem applied to the base state
and five iterations. -/
theorem combat_phase_only_for_runner_witness :
    combatInvariant baseState
    ∧ (combatInvariant (endPhaseIter baseState 5)
       ∧ combatInvariant (pmPhaseIter baseState 5)) :=
  ⟨by decide, combat_phase_only_for_runner baseState (by decide) 5⟩

/-- C7: in a blocked exchange, both damage figures are the ones computed from
the pre-combat state (the program damage from the attacker card and the
blocker subtype, the ICE damage from the blocker card alone), a card leaves
its owner field exactly when the damage it received is at least its
toughness — evaluated independently, so both, either or neither may die —
removal preserves the order of the other field cards (eraseIdx), and hands,
decks and the core are untouched. -/
theorem resolveCombat_simultaneous_destruction (s : GameState) (pIdx iIdx : Nat)
    (prog : ProgramCard) (ice : IceCard)
    (hp : s.runner.field[pIdx]? = some (Card.program prog))
    (hi : s.corp.field[iIdx]? = some (Card.ice ice)) :
    (CombatResolver.resolveCombat s pIdx iIdx).runner.field
      = (if prog.toughness ≤ ICEMechanics.calculateDamage ice
         then s.runner.field.eraseIdx pIdx else s.runner.field)
    ∧ (CombatResolver.resolveCombat s pIdx iIdx).corp.field
      = (if ice.toughness ≤ ProgramMechanics.calculateDamage prog (some ice.iceType)
         then s.corp.field.eraseIdx iIdx else s.corp.field)
    ∧ (CombatResolver.resolveCombat s pIdx iIdx).runner.hand = s.runner.hand
    ∧ (CombatResolver.resolveCombat s pIdx iIdx).runner.deck = s.runner.deck
    ∧ (CombatResolver.resolveCombat s pIdx iIdx).corp.hand = s.corp.hand
    ∧ (CombatResolver.resolveCombat s pIdx iIdx).corp.deck = s.corp.deck
    ∧ (CombatResolver.resolveCombat s pIdx iIdx).corp.core = s.corp.core := by
  by_cases h1 : prog.toughness ≤ ICEMechanics.calculateDamage ice <;>
    by_cases h2 : ice.toughness ≤ ProgramMechanics.calculateDamage prog (some ice.iceType) <;>
    simp [CombatResolver.resolveCombat, CombatResolver.applyDamageAndRemoveDestroyed,
      hp, hi, h1, h2, pushLog]

/-- C7 witness: the combat theorem applied to the concrete Fracter-vs-Barrier
scenario. -/
theorem resolveCombat_simultaneous_destruction_witness :
    (CombatResolver.resolveCombat combatScenario 0 0).runner.field
      = (if sampleFracter.toughness ≤ ICEMechanics.calculateDamage sampleBarrier
         then combatScenario.runner.field.eraseIdx 0 else combatScenario.runner.field)
    ∧ (CombatResolver.resolveCombat combatScenario 0 0).corp.field
      = (if sampleBarrier.toughness
            ≤ ProgramMechanics.calculateDamage sampleFracter (some sampleBarrier.iceType)
         then combatScenario.corp.field.eraseIdx 0 else combatScenario.corp.field)
    ∧ (CombatResolver.resolveCombat combatScenario 0 0).runner.hand
        = combatScenario.runner.hand
    ∧ (CombatResolver.resolveCombat combatScenario 0 0).runner.deck
        = combatScenario.runner.deck
    ∧ (CombatResolver.resolveCombat combatScenario 0 0).corp.hand
        = combatScenario.corp.hand
    ∧ (CombatResolver.resolveCombat combatScenario 0 0).corp.deck
        = combatScenario.corp.deck
    ∧ (CombatResolver.resolveCombat combatScenario 0 0).corp.core
        = combatScenario.corp.core :=
  resolveCombat_simultaneous_destruction combatScenario 0 0 sampleFracter sampleBarrier
    (by decide) (by decide)

/-- C5 counterexample: the claim says an action failing validation for an
illegal zone index raises a validation error and leaves the state — log
included — unchanged. Processing PLAY_CARD with the out-of-range hand index 5
in the Runner MAIN phase instead succeeds (no error is raised) and returns a
state whose log has grown by a failure entry. -/
theorem invalid_index_not_raised_counterexample :
    ActionProcessor.processAction invalidIndexScenario invalidIndexAction
      = Except.ok (pushLog invalidIndexScenario "Invalid card index" EventType.GAME)
    ∧ pushLog invalidIndexScenario "Invalid card index" EventType.GAME
        ≠ invalidIndexScenario := by
  exact ⟨rfl, by decide⟩

/-- C5 amended: validation failures are split. Phase, side and game-over
violations, and an illegal attacker field index, are raised as errors to the
caller with no state returned (hence no mutation); but an illegal hand index
or an unaffordable cost inside playCard is not raised — the operation
returns the state unchanged except for one appended failure log entry. -/
theorem validation_failure_semantics :
    (∀ (s : GameState) (p : AttackPayload),
      s.gameOver = false → s.activePlayer = PlayerType.RUNNER → s.phase = PhaseType.COMBAT →
      (p.programIndex < 0 ∨ (s.runner.field.length : Int) ≤ p.programIndex) →
      ActionProcessor.processAction s
          { type := ActionType.ATTACK, payload := some (ActionPayload.attackP p) }
        = Except.error "Invalid program index for attack")
    ∧ (∀ (s : GameState) (idx : Int),
      s.gameOver = false → s.activePlayer = PlayerType.RUNNER → s.phase = PhaseType.MAIN →
      (idx < 0 ∨ (s.runner.hand.length : Int) ≤ idx) →
      ActionProcessor.processAction s
          { type := ActionType.PLAY_CARD,
            payload := some (ActionPayload.playCardP
              { cardIndex := idx, cardType := CardType.PROGRAM }) }
        = Except.ok (pushLog s "Invalid card index" EventType.GAME))
    ∧ (∀ (s : GameState) (idx : Int) (card : Card),
      s.gameOver = false → s.activePlayer = PlayerType.RUNNER → s.phase = PhaseType.MAIN →
      0 ≤ idx → idx < (s.runner.hand.length : Int) →
      s.runner.hand[idx.toNat]? = some card →
      s.runner.npuAvailable < card.cost →
      ActionProcessor.processAction s
          { type := ActionType.PLAY_CARD,
            payload := some (ActionPayload.playCardP
              { cardIndex := idx, cardType := CardType.PROGRAM }) }
        = Except.ok (pushLog s "Not enough NPU to play card" EventType.GAME))
    ∧ (∀ (s : GameState) (a : UserAction),
      s.gameOver = true → a.type ≠ ActionType.QUIT →
      ActionProcessor.processAction s a
        = Except.error "Game is over. No further actions allowed except QUIT.") := by
  refine ⟨?_, ?_, ?_, ?_⟩
  · intro s p hover hact hphase hbad
    simp [ActionProcessor.processAction, ActionProcessor.validateAction,
      ActionProcessor.isActionAllowed, hover, hact, hphase, ActionProcessor.processAttack,
      hbad]
  · intro s idx hover hact hphase hbad
    simp [ActionProcessor.processAction, ActionProcessor.validateAction,
      ActionProcessor.isActionAllowed, hover, hact, hphase, ActionProcessor.processPlayCard,
      GameStateManager.playCard, GameState.handOf, hbad, GameStateManager.logEvent]
  · intro s idx card hover hact hphase h0 h1 hcard hcost
    have hnot : ¬(idx < 0 ∨ (s.runner.hand.length : Int) ≤ idx) := by omega
    simp [ActionProcessor.processAction, ActionProcessor.validateAction,
      ActionProcessor.isActionAllowed, hover, hact, hphase, ActionProcessor.processPlayCard,
      GameStateManager.playCard, GameState.handOf, GameState.npuAvailableOf, GameState.fieldOf,
      hnot, hcard, hcost, GameStateManager.logEvent]
  · intro s a hover hq
    simp [ActionProcessor.processAction, ActionProcessor.validateAction, hover, hq]

/-- C5 witness: the amended validation theorem applied to a concrete
out-of-range attack in the COMBAT phase. -/
theorem validation_failure_semantics_witness :
    ActionProcessor.processAction attackScenario
        { type := ActionType.ATTACK, payload := some (ActionPayload.attackP { programIndex := 7 }) }
      = Except.error "Invalid program index for attack" :=
  validation_failure_semantics.1 attackScenario { programIndex := 7 }
    rfl rfl rfl (by decide)

/-- Frame facts for updateCorpHp with a nonpositive delta against an in-range
health pool: only the core current HP, the log, and - when the HP bottoms out
at 0 - the game-over flags change. -/
theorem updateCorpHp_damage_spec (s : GameState) (amount : Int)
    (hhp : s.corp.core.currentHp ≤ s.corp.core.maxHp) (hneg : amount ≤ 0) :
    (GameStateManager.updateCorpHp s amount).corp.core.currentHp
        = max 0 (s.corp.core.currentHp + amount)
    ∧ (GameStateManager.updateCorpHp s amount).runner = s.runner
    ∧ (GameStateManager.updateCorpHp s amount).corp.deck = s.corp.deck
    ∧ (GameStateManager.updateCorpHp s amount).corp.hand = s.corp.hand
    ∧ (GameStateManager.updateCorpHp s amount).corp.field = s.corp.field
    ∧ (GameStateManager.updateCorpHp s amount).corp.npuAvailable = s.corp.npuAvailable
    ∧ (GameStateManager.updateCorpHp s amount).corp.npuTotal = s.corp.npuTotal
    ∧ (GameStateManager.updateCorpHp s amount).corp.core.maxHp = s.corp.core.maxHp
    ∧ (GameStateManager.updateCorpHp s amount).turn = s.turn
    ∧ (GameStateManager.updateCorpHp s amount).phase = s.phase
    ∧ (GameStateManager.updateCorpHp s amount).activePlayer = s.activePlayer
    ∧ ((GameStateManager.updateCorpHp s amount).corp.core.currentHp ≠ 0 →
        (GameStateManager.updateCorpHp s amount).gameOver = s.gameOver
        ∧ (GameStateManager.updateCorpHp s amount).winner = s.winner)
    ∧ ((GameStateManager.updateCorpHp s amount).corp.core.currentHp = 0 →
        (GameStateManager.updateCorpHp s amount).gameOver = true
        ∧ (GameStateManager.updateCorpHp s amount).winner = some PlayerType.RUNNER) := by
  have hnlt : ¬(0 < amount) := by omega
  have hnew : max 0 (min (s.corp.core.currentHp + amount) s.corp.core.maxHp)
      = max 0 (s.corp.core.currentHp + amount) := by omega
  by_cases hz : max 0 (min (s.corp.core.currentHp + amount) s.corp.core.maxHp) = 0
  · have hz0 : s.corp.core.currentHp + amount ≤ 0 := by omega
    simp [GameStateManager.updateCorpHp, hnlt, hz, hz0, GameStateManager.checkWinCondition,
      GameStateManager.logEvent, pushLog, hnew.symm.trans hz]
  · have hz1 : ¬(s.corp.core.currentHp + amount ≤ 0) := by omega
    simp [GameStateManager.updateCorpHp, hnlt, hz, hz1, GameStateManager.logEvent, pushLog,
      hnew]

/-- C10: an Attack action that passes validation with an in-range attacker
index is resolved by the Action Processor alone — no blocker, no
CombatResolver: the returned state has the Corp core current HP reduced by
exactly the indexed field card power (0 when absent), clamped below at 0;
both sides zones and resource counters, the turn, phase and active player
are unchanged and no card is destroyed; the game-over flags are set (winner
Runner) exactly when the health reaches 0, beyond the appended log entries. -/
theorem processAttack_only_hits_core (s : GameState) (p : AttackPayload) (card : Card)
    (hover : s.gameOver = false) (hact : s.activePlayer = PlayerType.RUNNER)
    (hphase : s.phase = PhaseType.COMBAT)
    (h0 : 0 ≤ p.programIndex) (h1 : p.programIndex < (s.runner.field.length : Int))
    (hcard : s.runner.field[p.programIndex.toNat]? = some card)
    (hhp : s.corp.core.currentHp ≤ s.corp.core.maxHp)
    (hpow : 0 ≤ card.powerOpt.getD 0) :
    ∃ s', ActionProcessor.processAction s
        { type := ActionType.ATTACK, payload := some (ActionPayload.attackP p) }
        = Except.ok s'
      ∧ s'.corp.core.currentHp = max 0 (s.corp.core.currentHp - card.powerOpt.getD 0)
      ∧ s'.runner = s.runner
      ∧ s'.corp.deck = s.corp.deck
      ∧ s'.corp.hand = s.corp.hand
      ∧ s'.corp.field = s.corp.field
      ∧ s'.corp.npuAvailable = s.corp.npuAvailable
      ∧ s'.corp.npuTotal = s.corp.npuTotal
      ∧ s'.corp.core.maxHp = s.corp.core.maxHp
      ∧ s'.turn = s.turn
      ∧ s'.phase = s.phase
      ∧ s'.activePlayer = s.activePlayer
      ∧ (s'.corp.core.currentHp ≠ 0 → s'.gameOver = s.gameOver ∧ s'.winner = s.winner)
      ∧ (s'.corp.core.currentHp = 0 → s'.gameOver = true
          ∧ s'.winner = some PlayerType.RUNNER) := by
  have hnot : ¬(p.programIndex < 0 ∨ (s.runner.field.length : Int) ≤ p.programIndex) := by
    omega
  refine ⟨GameStateManager.updateCorpHp s (-(card.powerOpt.getD 0)), ?_, ?_⟩
  · simp [ActionProcessor.processAction, ActionProcessor.validateAction,
      ActionProcessor.isActionAllowed, hover, hact, hphase, ActionProcessor.processAttack,
      hnot, hcard]
  · have h := updateCorpHp_damage_spec s (-(card.powerOpt.getD 0)) hhp (by omega)
    simpa [Int.sub_eq_add_neg] using h

/-- C10 witness: the attack theorem applied to the concrete COMBAT scenario
with the power-2 Fracter on the Runner field. -/
theorem processAttack_only_hits_core_witness :
    ∃ s', ActionProcessor.processAction attackScenario
        { type := ActionType.ATTACK,
          payload := some (ActionPayload.attackP { programIndex := 0 }) }
        = Except.ok s'
      ∧ s'.corp.core.currentHp
          = max 0 (attackScenario.corp.core.currentHp
              - (Card.program sampleFracter).powerOpt.getD 0)
      ∧ s'.runner = attackScenario.runner
      ∧ s'.corp.deck = attackScenario.corp.deck
      ∧ s'.corp.hand = attackScenario.corp.hand
      ∧ s'.corp.field = attackScenario.corp.field
      ∧ s'.corp.npuAvailable = attackScenario.corp.npuAvailable
      ∧ s'.corp.npuTotal = attackScenario.corp.npuTotal
      ∧ s'.corp.core.maxHp = attackScenario.corp.core.maxHp
      ∧ s'.turn = attackScenario.turn
      ∧ s'.phase = attackScenario.phase
      ∧ s'.activePlayer = attackScenario.activePlayer
      ∧ (s'.corp.core.currentHp ≠ 0 → s'.gameOver = attackScenario.gameOver
          ∧ s'.winner = attackScenario.winner)
      ∧ (s'.corp.core.currentHp = 0 → s'.gameOver = true
          ∧ s'.winner = some PlayerType.RUNNER) :=
  processAttack_only_hits_core attackScenario { programIndex := 0 }
    (Card.program sampleFracter) rfl rfl rfl (by decide) (by decide) (by decide)
    (by decide) (by decide)
